import Mathlib

/-!
# Verification of the sqlite-mcp query-synthesis pipeline

A shallow embedding of the query-synthesis pipeline of the sqlite-mcp
repository (`src/utils/utils.py`, `src/utils/query_utils.py`,
`src/utils/models.py`, `src/utils/config.py`), together with theorems
checking the natural-language specification against it.

Modelling conventions:
* Python strings are modelled by `String` / `List Char`; all string helpers
  (`upper`, `lower`, `strip`, `in`, `replace(_, _, 1)`, `split`) are defined
  over `List Char` so that they are amenable to induction.  Only ASCII case
  folding matters for the inputs of this pipeline.
* Python dicts that the code builds in insertion order are modelled as
  association lists in insertion order (a Python dict cannot hold a
  duplicated key; theorems that quantify over schemas add a `Nodup`
  hypothesis where the distinction could matter).
* Python exceptions are modelled with `Except PyErr`; reading a local
  variable that the control flow never assigned raises
  `PyErr.unboundLocal`, mirroring `UnboundLocalError`, and looking up a
  method that the class does not define raises `PyErr.attributeError`.
* Calendar values: `date.today()` is an explicit parameter `today : Int`
  (a proleptic-Gregorian ordinal, `date.toordinal()`).  The pipeline never
  inspects the text of an ISO-formatted date, so `isoformat()` strings are
  represented by the constructors of `DateStr` rather than by a rendered
  calendar string; `timedelta` arithmetic becomes integer arithmetic on the
  ordinal.
* Wall-clock execution time (`time.time()`) is not modelled; no claim
  mentions it.
-/

namespace SqliteMcp

/-! ## Python-flavoured string primitives (over `List Char`) -/

/-- `[a-zA-Z0-9_]`, the regex word class used throughout `utils.py`. -/
def isWordChar (c : Char) : Bool := c.isAlphanum || c == '_'

/-- Python `\s` over the ASCII range. -/
def isPyWs (c : Char) : Bool :=
  c == ' ' || c == '\t' || c == '\n' || c == '\r' || c == '\x0b' || c == '\x0c'

/-- `'` or `"`, the regex class `['\"]`. -/
def isQuote (c : Char) : Bool := c == '\'' || c == '"'

/-- Python `pat in s` (substring containment). -/
def occursIn (pat : List Char) : List Char → Bool
  | [] => pat.isPrefixOf []
  | c :: rest => pat.isPrefixOf (c :: rest) || occursIn pat rest

/-- Python `s.replace(pat, repl, 1)`: replace the first occurrence only. -/
def replaceFirstL (pat repl : List Char) : List Char → List Char
  | [] => if pat.isEmpty then repl else []
  | c :: rest =>
      if pat.isPrefixOf (c :: rest) then repl ++ (c :: rest).drop pat.length
      else c :: replaceFirstL pat repl rest

/-- Python `s.split(pat, 1)` when `pat` occurs: `(before, after)` of the
first occurrence; `none` when `pat` does not occur. -/
def splitFirstL (pat : List Char) : List Char → Option (List Char × List Char)
  | [] => if pat.isPrefixOf [] then some ([], []) else none
  | c :: rest =>
      if pat.isPrefixOf (c :: rest) then some ([], (c :: rest).drop pat.length)
      else (splitFirstL pat rest).map (fun ab => (c :: ab.1, ab.2))

/-- Python `s.upper()` (ASCII). -/
def upperL (l : List Char) : List Char := l.map Char.toUpper

/-- Python `s.lower()` (ASCII). -/
def lowerL (l : List Char) : List Char := l.map Char.toLower

/-- Python `s.strip()`. -/
def pyStripL (l : List Char) : List Char :=
  ((l.dropWhile isPyWs).reverse.dropWhile isPyWs).reverse

/-- Python `s.strip(chars)`: strip every leading/trailing char of the set. -/
def stripSetL (set : List Char) (l : List Char) : List Char :=
  ((l.dropWhile set.contains).reverse.dropWhile set.contains).reverse

/-- Python `s.split(c)` for a single-character separator. -/
def splitOnCharL (sep : Char) : List Char → List (List Char)
  | [] => [[]]
  | c :: rest =>
      if c == sep then [] :: splitOnCharL sep rest
      else
        match splitOnCharL sep rest with
        | h :: t => (c :: h) :: t
        | [] => [[c]]

/-- String wrappers around the list-level helpers. -/
def pyContains (s pat : String) : Bool := occursIn pat.data s.data

def pyUpperS (s : String) : String := ⟨upperL s.data⟩

def pyLower (s : String) : String := ⟨lowerL s.data⟩

def pyReplaceFirst (s pat repl : String) : String := ⟨replaceFirstL pat.data repl.data s.data⟩

def pyStripS (s : String) : String := ⟨pyStripL s.data⟩

def pySplitChar (s : String) (sep : Char) : List String :=
  (splitOnCharL sep s.data).map (fun l => ⟨l⟩)

/-- Python `", ".join` and friends. -/
def joinSep (sep : String) : List String → String
  | [] => ""
  | [x] => x
  | x :: xs => x ++ sep ++ joinSep sep xs

/-- Digits to a natural number (`int(...)` on a `\d+` group). -/
def natOfDigits (l : List Char) : Nat :=
  l.foldl (fun acc c => acc * 10 + (c.toNat - '0'.toNat)) 0

/-! ## Data model (`src/utils/models.py`) -/

/-- A value stored in `QueryFilter.filters`: the extractor stores either a
scalar string (equality / pattern filter) or a list of strings (IN filter). -/
inductive FilterVal where
  | str (v : String)
  | list (vs : List String)
  deriving DecidableEq, Repr

/-- A date string flowing through the pipeline.  `lit` is text captured
verbatim from the request; the other constructors stand for `isoformat()`
of a computed `date` (see the calendar convention in the header). -/
inductive DateStr where
  | lit (s : String)
  | isoOfDay (ordinal : Int)
  | firstOfMonthOf (ordinal : Int)
  deriving DecidableEq, Repr

/-- Python truthiness of a date string (`None` handled at `Option` level). -/
def DateStr.truthy : DateStr → Bool
  | .lit s => !s.isEmpty
  | _ => true

def optDateTruthy : Option DateStr → Bool
  | none => false
  | some d => d.truthy

def optStrTruthy : Option String → Bool
  | none => false
  | some s => !s.isEmpty

/-- An entry of the `auto_applied` list.  The source stores strings; the
constructors carry exactly the information those strings render. -/
inductive Note where
  | column_limit
  | autoDateWindow (startDate endDate : DateStr)
  | sampling
  deriving DecidableEq, Repr

/-- A bound parameter value. -/
inductive PValue where
  | str (v : String)
  | int (n : Int)
  | date (d : DateStr)
  | listv (vs : List String)
  deriving DecidableEq, Repr

/-- `TableSchema`: ordered mapping column name → declared type. -/
abbrev Schema := List (String × String)

/-- `QueryFilter` (`models.py`): the structured filter intent. -/
structure QueryFilter where
  columns : List String := []
  filters : List (String × FilterVal) := []
  start_date : Option DateStr := none
  end_date : Option DateStr := none
  order_by : Option String := none
  group_by : List String := []
  deriving DecidableEq, Repr

/-- `MCPRequest` (`models.py`). -/
structure MCPRequest where
  user_text : String
  table : String
  rows_budget : Option Nat := some 10
  limit : Option Nat := some 5
  deriving DecidableEq, Repr

/-- Python exceptions that the pipeline can raise. -/
inductive PyErr where
  | valueError (msg : String)
  | unboundLocal (name : String)
  | attributeError (name : String)
  | nameError (name : String)
  | indexError (msg : String)
  | executionError (msg : String)
  deriving DecidableEq, Repr

/-- The diagnostic notes a response can carry (the source renders these as
f-strings; the constructors carry the interpolated data). -/
inductive NoteMsg where
  | tableDoesNotExist (name : String)
  | errorExecuting (e : PyErr)
  | errorExecutingSampling (e : PyErr)
  | errorProcessing (e : PyErr)
  deriving DecidableEq, Repr

/-- A result row, as returned by the storage collaborator. -/
abbrev Row := List (String × PValue)

/-- `MCPResponse` (`models.py`); `execution_time` is not modelled. -/
structure MCPResponse where
  sql_preview : String
  params : List (String × PValue)
  estimated_rows : Option Nat := none
  auto_applied : List Note
  rows : Option (List Row) := none
  note : Option NoteMsg := none
  deriving DecidableEq, Repr

/-- The storage collaborator (`DatabaseManager`), §6 of the spec: the
methods the orchestrator's happy path relies on. -/
structure Db where
  table_exists : String → Bool
  get_table_schema : String → Schema
  get_row_count : String → Nat
  execute_query : String → List (String × PValue) → Except PyErr (List Row)

/-! ## Configuration (`src/utils/config.py`) -/

def DEFAULT_LIMIT : Nat := 50

def DEFAULT_WINDOW_DAYS : Int := 365

def MAX_ROWS_BUDGET : Nat := 1000000

/-- `int(SAMPLING_RATE * 100)` with `SAMPLING_RATE = 0.01`. -/
def SAMPLING_PERCENT : Nat := 1

/-- `int(estimated_rows * SAMPLING_RATE)` with `SAMPLING_RATE = 0.01`;
for the row counts involved this equals floor division by 100. -/
def samplingScale (n : Nat) : Nat := n / 100

def DATE_COLUMN_CANDIDATES : List String :=
  ["date", "created_at", "updated_at", "timestamp", "time", "datetime",
   "start_date", "end_date"]

/-- Python `x or default` on an optional integer (`0` and `None` are falsy). -/
def pyOrOpt (o : Option Nat) (d : Nat) : Nat :=
  match o with
  | none => d
  | some n => if n == 0 then d else n

/-- Python `x or default` on an integer (`0` is falsy). -/
def pyOrNat (n d : Nat) : Nat := if n == 0 then d else n

/-- Python dict lookup on an insertion-ordered association list: a later
binding of the same key overwrites an earlier one. -/
def pyDictLookup (l : List (String × String)) (k : String) : Option String :=
  l.reverse.lookup k

/-- Dict update `d[k] = v`: overwrite in place, else append. -/
def dictInsert (l : List (String × FilterVal)) (k : String) (v : FilterVal) :
    List (String × FilterVal) :=
  if (l.map Prod.fst).contains k then
    l.map (fun kv => if kv.1 == k then (k, v) else kv)
  else l ++ [(k, v)]

/-! ## Regex scanners

Each regex the source uses is embedded as a matcher over `List Char`.
`re.search` semantics: try the matcher at every position, left to right;
`re.finditer`: collect non-overlapping matches, resuming after each.
Greedy character-class runs are maximal; the one pattern whose class can
swallow its own continuation (`select\s+([a-zA-Z0-9_,\s*]+)\s+from`)
backtracks the group length, exactly as the regex engine does.  All
matching is case-insensitive (`re.IGNORECASE`). -/

/-- Maximal run of characters satisfying `p`, plus the rest. -/
def takeRun (p : Char → Bool) (t : List Char) : List Char × List Char :=
  (t.takeWhile p, t.dropWhile p)

/-- `\s+`: at least one whitespace character; returns the rest. -/
def ws1 (t : List Char) : Option (List Char) :=
  let (r, rest) := takeRun isPyWs t
  if r.isEmpty then none else some rest

/-- Case-insensitive literal match; returns the rest. -/
def matchLitCI : List Char → List Char → Option (List Char)
  | [], t => some t
  | _, [] => none
  | p :: ps, c :: cs => if p.toLower == c.toLower then matchLitCI ps cs else none

/-- `['\"]([^\"']+)['\"]`: a quoted chunk; returns the chunk and the rest. -/
def matchQuoted (t : List Char) : Option (List Char × List Char) :=
  match t with
  | [] => none
  | q :: r =>
      if isQuote q then
        let (inner, r2) := takeRun (fun c => !(isQuote c)) r
        if inner.isEmpty then none
        else
          match r2 with
          | q2 :: r3 => if isQuote q2 then some (inner, r3) else none
          | [] => none
      else none

/-- `re.search`: first position where the matcher succeeds. -/
def scanOpt {α : Type} (m : List Char → Option α) : List Char → Option α
  | [] => m []
  | c :: rest =>
      match m (c :: rest) with
      | some r => some r
      | none => scanOpt m rest

/-- Fuelled worker for `re.finditer`. -/
def scanAllGo {α : Type} (m : List Char → Option (α × List Char)) :
    Nat → List Char → List α
  | 0, _ => []
  | _ + 1, [] =>
      match m [] with
      | some (a, _) => [a]
      | none => []
  | fuel + 1, c :: rest =>
      match m (c :: rest) with
      | some (a, rem) => a :: scanAllGo m fuel rem
      | none => scanAllGo m fuel rest

/-- `re.finditer`: every matcher consumes at least one character, so
`length + 1` fuel reproduces the engine exactly. -/
def scanAll {α : Type} (m : List Char → Option (α × List Char)) (t : List Char) :
    List α :=
  scanAllGo m (t.length + 1) t

/-- The class `[a-zA-Z0-9_,\s*]` of the SELECT / ORDER BY / GROUP BY groups. -/
def selClass (c : Char) : Bool := isWordChar c || c == ',' || isPyWs c || c == '*'

/-- Backtracking for `([a-zA-Z0-9_,\s*]+)\s+from`: try group lengths from
the maximal run downwards until the continuation `\s+from` matches. -/
def selBacktrack (run rest : List Char) : Nat → Option String
  | 0 => none
  | k + 1 =>
      let rem := run.drop (k + 1) ++ rest
      match ws1 rem with
      | some r =>
          match matchLitCI "from".data r with
          | some _ => some ⟨run.take (k + 1)⟩
          | none => selBacktrack run rest k
      | none => selBacktrack run rest k

/-- `select\s+([a-zA-Z0-9_,\s*]+)\s+from` at one position: the group text. -/
def matchSelectAt (t : List Char) : Option String := do
  let r1 ← matchLitCI "select".data t
  let r2 ← ws1 r1
  let (run, rest) := takeRun selClass r2
  if run.isEmpty then failure
  selBacktrack run rest run.length

/-- `([a-zA-Z0-9_]+)\s+in\s*\(([^)]+)\)` at one position: lower-cased
column, trimmed and unquoted values, and the rest of the input. -/
def matchInAt (t : List Char) : Option ((String × List String) × List Char) := do
  let (w, r1) := takeRun isWordChar t
  if w.isEmpty then failure
  let r2 ← ws1 r1
  let r3 ← matchLitCI "in".data r2
  let (_, r4) := takeRun isPyWs r3
  match r4 with
  | '(' :: r5 =>
      let (inner, r6) := takeRun (fun c => c != ')') r5
      if inner.isEmpty then failure
      match r6 with
      | ')' :: r7 =>
          let vals := ((splitOnCharL ',' inner).filter
              (fun v => !(pyStripL v).isEmpty)).map
            (fun v => (⟨stripSetL ['\'', '"'] (pyStripL v)⟩ : String))
          pure ((⟨lowerL w⟩, vals), r7)
      | _ => failure
  | _ => failure

/-- `([a-zA-Z0-9_]+)\s*=\s*([^\s,\)]+)` at one position: lower-cased
column, unquoted value, and the rest. -/
def matchEqAt (t : List Char) : Option ((String × String) × List Char) := do
  let (w, r1) := takeRun isWordChar t
  if w.isEmpty then failure
  let (_, r2) := takeRun isPyWs r1
  match r2 with
  | '=' :: r3 =>
      let (_, r4) := takeRun isPyWs r3
      let (v, r5) := takeRun (fun c => !isPyWs c && c != ',' && c != ')') r4
      if v.isEmpty then failure
      pure ((⟨lowerL w⟩, ⟨stripSetL ['\'', '"'] (pyStripL v)⟩), r5)
  | _ => failure

/-- `([a-zA-Z0-9_]+)\s+like\s*['\"]([^\"']+)['\"]` at one position. -/
def matchLikeAt (t : List Char) : Option ((String × String) × List Char) := do
  let (w, r1) := takeRun isWordChar t
  if w.isEmpty then failure
  let r2 ← ws1 r1
  let r3 ← matchLitCI "like".data r2
  let (_, r4) := takeRun isPyWs r3
  let (pat, r5) ← matchQuoted r4
  pure ((⟨lowerL w⟩, ⟨pyStripL pat⟩), r5)

/-- `([a-zA-Z0-9_]+)\s+between\s+['\"](…)['\"]\s+and\s+['\"](…)['\"]` at one
position: the three capture groups. -/
def matchBetweenAt (t : List Char) : Option (String × String × String) := do
  let (w, r1) := takeRun isWordChar t
  if w.isEmpty then failure
  let r2 ← ws1 r1
  let r3 ← matchLitCI "between".data r2
  let r4 ← ws1 r3
  let (d1, r5) ← matchQuoted r4
  let r6 ← ws1 r5
  let r7 ← matchLitCI "and".data r6
  let r8 ← ws1 r7
  let (d2, _) ← matchQuoted r8
  pure (⟨w⟩, ⟨d1⟩, ⟨d2⟩)

/-- `last\s+(\d+)\s+days` at one position: the number. -/
def matchLastDaysAt (t : List Char) : Option Nat := do
  let r1 ← matchLitCI "last".data t
  let r2 ← ws1 r1
  let (ds, r3) := takeRun Char.isDigit r2
  if ds.isEmpty then failure
  let r4 ← ws1 r3
  let _ ← matchLitCI "days".data r4
  pure (natOfDigits ds)

/-- `this\s+week` / `this\s+month` at one position. -/
def matchThisAt (word : String) (t : List Char) : Option Unit := do
  let r1 ← matchLitCI "this".data t
  let r2 ← ws1 r1
  let _ ← matchLitCI word.data r2
  pure ()

/-- `order\s+by\s+([a-zA-Z0-9_,\s*]+)(\s+asc|\s+desc)?` at one position.
The greedy group-1 class contains `\s` and every letter, so it always
swallows a trailing `asc`/`desc` and group 2 is always empty; the stripped
group-1 text is returned. -/
def matchOrderByAt (t : List Char) : Option String := do
  let r1 ← matchLitCI "order".data t
  let r2 ← ws1 r1
  let r3 ← matchLitCI "by".data r2
  let r4 ← ws1 r3
  let (run, _) := takeRun selClass r4
  if run.isEmpty then failure
  pure ⟨pyStripL run⟩

/-- `group\s+by\s+([a-zA-Z0-9_,\s*]+)` at one position: the group text. -/
def matchGroupByAt (t : List Char) : Option String := do
  let r1 ← matchLitCI "group".data t
  let r2 ← ws1 r1
  let r3 ← matchLitCI "by".data r2
  let r4 ← ws1 r3
  let (run, _) := takeRun selClass r4
  if run.isEmpty then failure
  pure ⟨run⟩

/-- `from\s+([azA-Z0-9_\.]+)` with `re.IGNORECASE`
(`QueryService._determine_table_ref`): under `IGNORECASE` the ranges `a`,
`z`, `A-Z` case-fold to cover every ASCII letter. -/
def tableRefClass (c : Char) : Bool := c.isAlpha || c.isDigit || c == '_' || c == '.'

def matchFromAt (t : List Char) : Option String := do
  let r1 ← matchLitCI "from".data t
  let r2 ← ws1 r1
  let (run, _) := takeRun tableRefClass r2
  if run.isEmpty then failure
  pure ⟨run⟩

/-! ## `src/utils/utils.py` -/

/-- `normalize_table_ref`. -/
def normalize_table_ref (table_ref : String) : String :=
  let parts := pySplitChar table_ref '.'
  if parts.length ≥ 2 then parts.getLastD ""
  else pyStripS (pyLower table_ref)

/-- The date-range rule chain of `extract_query_components` (lines 79-105):
try `between`, then `last N days`, then `this week`, then `this month`;
the first matching rule wins.  The `between` branch reproduces the source's
group indexing: it assigns `group(1)` (the column name) to `start_date` and
`group(2)` (the first date) to `end_date`; `group(3)` is never read. -/
def extractDateRange (today : Int) (t : List Char) : Option DateStr × Option DateStr :=
  match scanOpt matchBetweenAt t with
  | some (g1, g2, _g3) =>
      (some (.lit (pyStripS g1)), some (.lit (pyStripS g2)))
  | none =>
      match scanOpt matchLastDaysAt t with
      | some n =>
          (some (.isoOfDay (today - (n : Int))), some (.isoOfDay today))
      | none =>
          if (scanOpt (matchThisAt "week") t).isSome then
            -- start_of_week = today - timedelta(days=today.weekday());
            -- with `today` a proleptic ordinal, weekday = (today + 6) % 7
            (some (.isoOfDay (today - (today + 6) % 7)), some (.isoOfDay today))
          else if (scanOpt (matchThisAt "month") t).isSome then
            (some (.firstOfMonthOf today), some (.isoOfDay today))
          else (none, none)

/-- The reserved words skipped by the equality-filter rule. -/
def SQL_KEYWORDS : List String :=
  ["from", "select", "where", "limit", "order", "group", "by"]

/-- `extract_query_components`. -/
def extract_query_components (today : Int) (user_text : String) : QueryFilter :=
  let t := user_text.data
  let columns :=
    match scanOpt matchSelectAt t with
    | some colsStr =>
        ((pySplitChar colsStr ',').map pyStripS).filter
          (fun c => !c.isEmpty && c != "*")
    | none => []
  let filters1 := (scanAll matchInAt t).foldl
    (fun fs kv => dictInsert fs kv.1 (FilterVal.list kv.2)) []
  let filters2 := (scanAll matchEqAt t).foldl
    (fun fs kv =>
      if SQL_KEYWORDS.contains (pyLower kv.1) then fs
      else if (fs.map Prod.fst).contains kv.1 then fs
      else dictInsert fs kv.1 (FilterVal.str kv.2)) filters1
  let filters3 := (scanAll matchLikeAt t).foldl
    (fun fs kv => dictInsert fs (kv.1 ++ "_like") (FilterVal.str kv.2)) filters2
  let dates := extractDateRange today t
  let order_by := (scanOpt matchOrderByAt t).map (fun col => col ++ " ASC")
  let group_by :=
    match scanOpt matchGroupByAt t with
    | some g => ((pySplitChar g ',').map pyStripS).filter (fun c => !c.isEmpty)
    | none => []
  { columns := columns, filters := filters3,
    start_date := dates.1, end_date := dates.2,
    order_by := order_by, group_by := group_by }

/-- Worker for `find_date_column`: walk the candidate list; a candidate
present in the schema is returned only when its upper-cased type contains
DATE, TIMESTAMP or DATETIME, otherwise the walk continues. -/
def findDateGo (schema_lower : List (String × String)) :
    List String → Option String
  | [] => none
  | candidate :: rest =>
      match pyDictLookup schema_lower candidate with
      | some ty =>
          let data_type := pyUpperS ty
          if ["DATE", "TIMESTAMP", "DATETIME"].any (fun dt => pyContains data_type dt)
          then some candidate
          else findDateGo schema_lower rest
      | none => findDateGo schema_lower rest

/-- `find_date_column`. -/
def find_date_column (schema : Schema) : Option String :=
  let schema_lower := schema.map (fun kv => (pyLower kv.1, pyLower kv.2))
  findDateGo schema_lower DATE_COLUMN_CANDIDATES

def FilterVal.toPValue : FilterVal → PValue
  | .str v => .str v
  | .list vs => .listv vs

/-- The inner loop of the `_like` branch of `build_where_clause`: one LIKE
predicate per schema column, each with a fresh placeholder. -/
def likeLoop (value : FilterVal) : Schema → Nat →
    List String × List (String × PValue) × Nat
  | [], counter => ([], [], counter)
  | (col_name, _) :: rest, counter =>
      let param_name := "param" ++ toString counter
      let (cs, ps, cFinal) := likeLoop value rest (counter + 1)
      ((col_name ++ " LIKE :" ++ param_name) :: cs,
       (param_name, value.toPValue) :: ps, cFinal)

/-- The `for key, value in filters.items()` loop of `build_where_clause`:
keys are processed in insertion order and classified individually. -/
def processFilters (schema : Schema) :
    List (String × FilterVal) → Nat → List String × List (String × PValue)
  | [], _ => ([], [])
  | (key, value) :: rest, counter =>
      if "_like".data.isSuffixOf key.data then
        let (cs, ps, cNext) := likeLoop value schema counter
        let (cs2, ps2) := processFilters schema rest cNext
        (cs ++ cs2, ps ++ ps2)
      else
        match value with
        | .list vs =>
            if (schema.map Prod.fst).contains key then
              let param_name := "param" ++ toString counter
              let placeholders := joinSep ", "
                ((List.range vs.length).map
                  (fun i => ":" ++ param_name ++ "_" ++ toString i))
              let clause := key ++ " IN (" ++ placeholders ++ ")"
              let ps := ((List.range vs.length).zip vs).map
                (fun iv => (param_name ++ "_" ++ toString iv.1, PValue.str iv.2))
              let (cs2, ps2) := processFilters schema rest (counter + 1)
              (clause :: cs2, ps ++ ps2)
            else processFilters schema rest counter
        | .str v =>
            if (schema.map Prod.fst).contains key then
              let param_name := "param" ++ toString counter
              let data_type := pyUpperS ((pyDictLookup schema key).getD "")
              let ps :=
                if (data_type == "INTEGER" || data_type == "INT")
                    && "is_".data.isPrefixOf key.data then
                  let bool_value :=
                    ["1", "true", "yes", "on", "y", "t"].contains (pyLower v)
                  [(param_name, PValue.int (if bool_value then 1 else 0))]
                else [(param_name, PValue.str v)]
              let (cs2, ps2) := processFilters schema rest (counter + 1)
              ((key ++ " = :" ++ param_name) :: cs2, ps ++ ps2)
            else processFilters schema rest counter

/-- `build_where_clause`. -/
def build_where_clause (filters : List (String × FilterVal)) (schema : Schema)
    (start_date : Option DateStr) (end_date : Option DateStr)
    (date_column : Option String) : List String × List (String × PValue) :=
  let datePart :=
    match start_date, end_date, date_column with
    | some sd, some ed, some dc =>
        if sd.truthy && ed.truthy && !dc.isEmpty then
          ([dc ++ " BETWEEN :start_date AND :end_date"],
           [("start_date", PValue.date sd), ("end_date", PValue.date ed)])
        else (([] : List String), ([] : List (String × PValue)))
    | _, _, _ => ([], [])
  let filterPart := processFilters schema filters 1
  (datePart.1 ++ filterPart.1, datePart.2 ++ filterPart.2)

/-- `estimate_query_cost`: the loop reassigns `estimated_rows` on every
iteration, so the last condition examined determines the returned value. -/
def estimate_query_cost (_table_name : String) (where_conditions : List String)
    (row_count : Nat) : Nat :=
  if where_conditions.isEmpty then row_count
  else
    where_conditions.foldl
      (fun _ condition =>
        if pyContains condition "=" then max 1 (row_count / 10)
        else if pyContains condition "IN" then max 1 (row_count / 5)
        else if pyContains condition "LIKE" then max 1 (row_count / 2)
        else row_count)
      0

/-! ## `src/utils/query_utils.py` (`QueryService`) -/

/-- `QueryService._determine_table_ref`. -/
def _determine_table_ref (request : MCPRequest) (_query_filter : QueryFilter) :
    Except PyErr String :=
  if !request.table.isEmpty then
    .ok (normalize_table_ref request.table)
  else
    match scanOpt matchFromAt request.user_text.data with
    | some name => .ok name
    | none => .error (.valueError "Table name could not be determined from the request.")

/-- Lines 80-122 of `_build_sql_query`, after the intent has (possibly) been
mutated by the implicit-date-window step.  `group_by_clause` and
`order_by_clause` are locals that the control flow assigns only on some
branches; reading one that was never assigned raises `UnboundLocalError`
(`none` encodes "never assigned"). -/
def buildSqlTail (table_name : String) (table_schema : Schema) (qf : QueryFilter)
    (columns : List String) (auto_applied : List Note) (date_column : Option String)
    (limit : Nat) : Except PyErr (String × List (String × PValue) × List Note) := do
  let whereBuilt :=
    build_where_clause qf.filters table_schema qf.start_date qf.end_date date_column
  let where_conditions := whereBuilt.1
  let select_clause := "SELECT " ++ joinSep ", " columns ++ " FROM " ++ table_name
  let from_clause := " FROM " ++ table_name
  let where_clause :=
    if !where_conditions.isEmpty then " WHERE " ++ joinSep " AND " where_conditions
    else ""
  let group_by_clause : Option String :=
    if !qf.group_by.isEmpty then
      let valid_group_by := qf.group_by.filter
        (fun col => (table_schema.map Prod.fst).contains (pyLower col))
      if !valid_group_by.isEmpty then
        some (" GROUP BY " ++ joinSep ", " valid_group_by)
      else none
    else none
  let order_by_clause : Option String ←
    if optStrTruthy qf.order_by then
      pure (some (" ORDER BY " ++ qf.order_by.getD ""))
    else
      -- `elif not group_by_clause:` reads `group_by_clause`
      match group_by_clause with
      | none => throw (PyErr.unboundLocal "group_by_clause")
      | some g =>
          if g.isEmpty then
            match columns with
            | c :: _ => pure (some ("ORDER BY " ++ c))
            | [] => throw (PyErr.indexError "list index out of range")
          else
            -- group clause truthy: the elif is skipped, the local stays unassigned
            pure none
  let limit_clause := " LIMIT " ++ toString limit
  let params := whereBuilt.2 ++ [("limit", PValue.int (limit : Int))]
  let sql_parts := [select_clause, from_clause]
  let sql_parts := if !where_clause.isEmpty then sql_parts ++ [where_clause] else sql_parts
  -- `if group_by_clause:` reads the local again
  let sql_parts ←
    match group_by_clause with
    | none => throw (PyErr.unboundLocal "group_by_clause")
    | some g => pure (if !g.isEmpty then sql_parts ++ [g] else sql_parts)
  -- `if order_by_clause:` reads the local
  let sql_parts ←
    match order_by_clause with
    | none => throw (PyErr.unboundLocal "order_by_clause")
    | some o => pure (if !o.isEmpty then sql_parts ++ [o] else sql_parts)
  let sql_parts := sql_parts ++ [limit_clause]
  let sql := joinSep " " sql_parts
  return (sql, params, auto_applied)

/-- `QueryService._build_sql_query`.  The function both returns a value and
mutates the caller's `query_filter` (the implicit date window); the second
component of the result is the filter as the caller observes it afterwards,
which is meaningful even when an exception propagates. -/
def _build_sql_query (table_name : String) (table_schema : Schema)
    (query_filter : QueryFilter) (limit : Nat) (row_count : Nat) (today : Int) :
    Except PyErr (String × List (String × PValue) × List Note) × QueryFilter :=
  if query_filter.columns.isEmpty then
    -- `valid_columns` is assigned only under `if query_filter.columns:`;
    -- with an empty intent the read `if not valid_columns:` (line 56)
    -- raises UnboundLocalError
    (.error (.unboundLocal "valid_columns"), query_filter)
  else
    let valid_columns := query_filter.columns.filter
      (fun col => (table_schema.map Prod.fst).contains (pyLower col))
    if valid_columns.isEmpty then
      (.error (.valueError "No valid columns found in the query filter."), query_filter)
    else
      let columns := valid_columns
      -- lines 60-63 (`if not columns: columns = first 12 …`) are dead code:
      -- `columns` is the non-empty `valid_columns` here; kept for fidelity
      let colsAuto :=
        if columns.isEmpty then
          ((table_schema.map Prod.fst).take 12,
           if table_schema.length > 12 then [Note.column_limit] else [])
        else (columns, ([] : List Note))
      let date_column := find_date_column table_schema
      let windowCond :=
        !(optDateTruthy query_filter.start_date)
          && !(optDateTruthy query_filter.end_date)
          && optStrTruthy date_column
          && decide (row_count > 10000)
      let qf2 :=
        if windowCond then
          { query_filter with
              start_date := some (DateStr.isoOfDay (today - DEFAULT_WINDOW_DAYS)),
              end_date := some (DateStr.isoOfDay today) }
        else query_filter
      let auto_applied :=
        if windowCond then
          colsAuto.2 ++ [Note.autoDateWindow (DateStr.isoOfDay (today - DEFAULT_WINDOW_DAYS))
            (DateStr.isoOfDay today)]
        else colsAuto.2
      (buildSqlTail table_name table_schema qf2 colsAuto.1 auto_applied date_column limit,
       qf2)

/-- `QueryService._add_sampling`: the membership tests are performed on the
upper-cased SQL, but `str.replace` rewrites the first occurrence of the
literal upper-case keyword in the original string. -/
def _add_sampling (sql : String) (samplingPercent : Nat) : String :=
  if pyContains (pyUpperS sql) "WHERE" then
    pyReplaceFirst sql "WHERE"
      ("WHERE ABS(RANDOM()) < " ++ toString samplingPercent ++ " AND ")
  else if pyContains (pyUpperS sql) "ORDER BY" then
    pyReplaceFirst sql "ORDER BY"
      ("WHERE ABS(RANDOM()) < " ++ toString samplingPercent ++ " ORDER BY ")
  else if pyContains (pyUpperS sql) "LIMIT" then
    pyReplaceFirst sql "LIMIT"
      ("WHERE ABS(RANDOM()) < " ++ toString samplingPercent ++ " LIMIT ")
  else
    sql ++ " WHERE ABS(RANDOM()) < " ++ toString samplingPercent

/-- The body of the `try:` block of `process_mcp_request` (lines 150-238). -/
def processTry (db : Db) (today : Int) (request : MCPRequest) :
    Except PyErr MCPResponse := do
  let query_filter := extract_query_components today request.user_text
  let table_ref ← _determine_table_ref request query_filter
  let table_name := normalize_table_ref table_ref
  if !db.table_exists table_name then
    return { sql_preview := "", params := [], auto_applied := [],
             note := some (.tableDoesNotExist table_name) }
  let table_schema := db.get_table_schema table_name
  -- line 168 evaluates `self._db_manager.get_table_row_count`; the manager
  -- class defines `get_row_count` but no `get_table_row_count`, so the
  -- attribute lookup raises AttributeError
  let row_count : Nat ← throw (PyErr.attributeError "get_table_row_count")
  -- everything below mirrors lines 170-238 and is unreachable
  let built := _build_sql_query table_name table_schema query_filter
    (pyOrOpt request.limit DEFAULT_LIMIT) (pyOrNat row_count MAX_ROWS_BUDGET) today
  let (sql, params, auto_applied) ← built.1
  let where_conditions :=
    if pyContains sql "WHERE" then
      match splitFirstL "WHERE".data sql.data with
      | some wsp =>
          let where_part :=
            if pyContains sql "ORDER BY" then
              match splitFirstL "ORDER BY".data wsp.2 with
              | some obp => obp.1
              | none => wsp.2
            else wsp.2
          [(⟨pyStripL where_part⟩ : String)]
      | none => []
    else []
  let estimated_rows := estimate_query_cost table_name where_conditions row_count
  if estimated_rows ≤ pyOrOpt request.rows_budget MAX_ROWS_BUDGET then
    match db.execute_query sql params with
    | .ok rows =>
        return { sql_preview := sql, params := params, auto_applied := auto_applied,
                 rows := some rows, estimated_rows := some estimated_rows }
    | .error e =>
        return { sql_preview := sql, params := params, auto_applied := auto_applied,
                 note := some (.errorExecuting e) }
  else
    let _sampling_sql := _add_sampling sql SAMPLING_PERCENT
    let _sampling_estimated := samplingScale estimated_rows
    -- line 219 evaluates `rows.budget`: the local `rows` is unbound on this
    -- branch (the intended name was `request.rows_budget`), NameError; the
    -- sampled-execution block below it (lines 220-238) is unreachable, and
    -- were the comparison false the function would fall through without a
    -- `Rejected` response
    throw (PyErr.nameError "rows")

/-- `QueryService.process_mcp_request`: the whole `try:` body is guarded by
`except Exception`, which renders any escaping error as a note. -/
def process_mcp_request (db : Db) (today : Int) (request : MCPRequest) :
    MCPResponse :=
  match processTry db today request with
  | .ok response => response
  | .error e =>
      { sql_preview := "", params := [], auto_applied := [],
        note := some (.errorProcessing e) }

/-! ## Concrete fixtures used by the theorems -/

/-- A thirteen-column schema (more than the 12-column cap). -/
def schema13 : Schema :=
  [("c01", "TEXT"), ("c02", "TEXT"), ("c03", "TEXT"), ("c04", "TEXT"),
   ("c05", "TEXT"), ("c06", "TEXT"), ("c07", "TEXT"), ("c08", "TEXT"),
   ("c09", "TEXT"), ("c10", "TEXT"), ("c11", "TEXT"), ("c12", "TEXT"),
   ("c13", "TEXT")]

/-- A single date-typed column, qualifying for the implicit date window. -/
def schemaDated : Schema := [("created_at", "DATETIME")]

/-- A storage collaborator holding one large table `orders` (2,000,000 rows,
ten times a 1,000,000-row budget — §8 scenario D of the spec). -/
def dbOrders : Db :=
  { table_exists := fun n => n == "orders"
    get_table_schema := fun _ => schemaDated
    get_row_count := fun _ => 2000000
    execute_query := fun _ _ => .ok [] }

/-- The §8 scenario D request. -/
def reqScenarioD : MCPRequest :=
  { user_text := "orders last 30 days", table := "orders",
    rows_budget := some 1000000, limit := some 50 }

/-- A storage collaborator with no tables at all. -/
def dbGhost : Db :=
  { table_exists := fun _ => false
    get_table_schema := fun _ => []
    get_row_count := fun _ => 0
    execute_query := fun _ _ => .ok [] }

/-- A request naming the nonexistent table `ghost` (§8 scenario C). -/
def reqGhost : MCPRequest := { user_text := "", table := "ghost" }

/-- A storage collaborator holding an existing but empty table `events`
with a qualifying date column. -/
def dbEmptyEvents : Db :=
  { table_exists := fun n => n == "events"
    get_table_schema := fun _ => schemaDated
    get_row_count := fun _ => 0
    execute_query := fun _ _ => .ok [] }

/-- A request against the empty `events` table. -/
def reqEvents : MCPRequest :=
  { user_text := "", table := "events", rows_budget := some 1000000 }

/-- A filter intent that survives every unbound-local trap of
`_build_sql_query` (it must carry both a valid `group_by` and an
`order_by`; see the C9 theorem). -/
def qfEvents : QueryFilter :=
  { columns := ["created_at"], group_by := ["created_at"],
    order_by := some "created_at" }

/-! ## Shared lemmas about the string primitives -/

/-- `occursIn` agrees with list-infix containment. -/
theorem occursIn_infix_iff (pat : List Char) :
    ∀ l, occursIn pat l = true ↔ pat <:+: l
  | [] => by
      simp [occursIn, List.isPrefixOf_iff_prefix]
  | c :: rest => by
      simp [occursIn, List.isPrefixOf_iff_prefix, occursIn_infix_iff pat rest,
        List.infix_cons_iff]

/-- Substring absence is inherited by any infix. -/
theorem occursIn_false_mono {pat l₁ l₂ : List Char} (h : l₁ <:+: l₂)
    (hf : occursIn pat l₂ = false) : occursIn pat l₁ = false := by
  by_contra hne
  have h1 : occursIn pat l₁ = true := by
    cases hx : occursIn pat l₁ with
    | true => rfl
    | false => exact absurd hx hne
  have h2 := ((occursIn_infix_iff pat l₁).mp h1).trans h
  have h3 := (occursIn_infix_iff pat l₂).mpr h2
  rw [hf] at h3
  exact Bool.noConfusion h3

/-- An upper-case-invariant pattern that occurs in `l` occurs in `upperL l`. -/
theorem occursIn_upper {pat l : List Char} (hu : pat.map Char.toUpper = pat)
    (h : occursIn pat l = true) : occursIn pat (upperL l) = true := by
  have hi := (occursIn_infix_iff pat l).mp h
  have hm := hi.map Char.toUpper
  rw [hu] at hm
  exact (occursIn_infix_iff pat (upperL l)).mpr hm

/-- `str.replace(pat, repl, 1)` rewrites exactly the first occurrence:
the input decomposes around an occurrence of `pat` whose prefix part is
`pat`-free, and the output is the same decomposition with `repl` in place
of `pat`. -/
theorem replaceFirst_decomp (pat r : List Char) (hne : pat ≠ []) :
    ∀ s, occursIn pat s = true →
      ∃ a b, s = a ++ pat ++ b ∧ occursIn pat a = false ∧
        replaceFirstL pat r s = a ++ r ++ b
  | [], h => by
      exfalso
      rw [occursIn] at h
      cases pat with
      | nil => exact hne rfl
      | cons x xs => exact Bool.noConfusion (show false = true from h)
  | c :: rest, h => by
      cases hp : pat.isPrefixOf (c :: rest) with
      | true =>
          obtain ⟨t, ht⟩ := List.isPrefixOf_iff_prefix.mp hp
          refine ⟨[], t, ?_, ?_, ?_⟩
          · simp [← ht]
          · rw [occursIn]
            cases pat with
            | nil => exact absurd rfl hne
            | cons x xs => rfl
          · rw [replaceFirstL]
            simp only [hp, if_true, ← ht, List.drop_left]
            simp
      | false =>
        have h2 : occursIn pat rest = true := by
          rw [occursIn, hp] at h
          simpa using h
        obtain ⟨a, b, hs, ha, hr⟩ := replaceFirst_decomp pat r hne rest h2
        refine ⟨c :: a, b, by simp [hs], ?_, ?_⟩
        · have hnotpre : pat.isPrefixOf (c :: a) = false := by
            cases hx : pat.isPrefixOf (c :: a) with
            | false => rfl
            | true =>
                exfalso
                have hpre2 := List.isPrefixOf_iff_prefix.mp hx
                have hca : (c :: a) <+: (c :: rest) := ⟨pat ++ b, by simp [hs]⟩
                have hcon := List.isPrefixOf_iff_prefix.mpr (hpre2.trans hca)
                rw [hp] at hcon
                exact Bool.noConfusion hcon
          rw [occursIn]
          simp [hnotpre, ha]
        · rw [replaceFirstL]
          simp only [hp, Bool.false_eq_true, if_false, hr]
          simp

/-! ## Shared lemmas about the WHERE-clause construction -/

/-- The inner `for col_name in schema` loop of a `_like` filter: one LIKE
clause per schema column, with consecutively numbered placeholders. -/
theorem likeLoop_spec (v : FilterVal) :
    ∀ (schema : Schema) (c : Nat),
      likeLoop v schema c =
        ((schema.enumFrom c).map (fun p => p.2.1 ++ " LIKE :" ++ ("param" ++ toString p.1)),
         (schema.enumFrom c).map (fun p => ("param" ++ toString p.1, v.toPValue)),
         c + schema.length)
  | [], c => by simp [likeLoop, List.enumFrom]
  | (cn, ty) :: rest, c => by
      rw [likeLoop, likeLoop_spec v rest (c + 1)]
      simp only [List.enumFrom, List.map_cons, List.length_cons]
      have harith : c + 1 + rest.length = c + (rest.length + 1) := by omega
      rw [harith]

/-- A non-`_like` filter whose key is not a schema column is dropped
without consuming a placeholder index. -/
theorem processFilters_drop (schema : Schema) (k : String) (v : FilterVal)
    (fs : List (String × FilterVal)) (c : Nat)
    (hlike : "_like".data.isSuffixOf k.data = false)
    (habs : (schema.map Prod.fst).contains k = false) :
    processFilters schema ((k, v) :: fs) c = processFilters schema fs c := by
  cases v with
  | str s =>
      rw [processFilters]
      simp only [hlike, habs, Bool.false_eq_true, if_false]
  | list vs =>
      rw [processFilters]
      simp only [hlike, habs, Bool.false_eq_true, if_false]

theorem stringData_mk (l : List Char) : (String.mk l).data = l := rfl

/-! ## Claim theorems -/

/-- C1 (code bug).  Column selection in `_build_sql_query`: with a
non-empty intent the code does behave as claimed — it fails with the
`NoValidColumns` `ValueError` exactly when no intent column is present in
the schema, and otherwise selects the intent's present columns
(matched by lower-casing the intent column, preserving caller order) —
but for an intent with empty `columns` the read `if not valid_columns:`
raises `UnboundLocalError` because `valid_columns` is assigned only under
`if query_filter.columns:`, so the claimed first-12-columns fallback and
its `column_limit` note (lines 60-63) are dead code. -/
theorem C1_column_selection :
    ((_build_sql_query "t" schema13 {} 50 20000 1000).1
        = .error (.unboundLocal "valid_columns"))
    ∧ schema13.length > 12
    ∧ ((_build_sql_query "t" schema13 { columns := ["nope"] } 50 20000 1000).1
        = .error (.valueError "No valid columns found in the query filter."))
    ∧ ((_build_sql_query "t" schema13
          { columns := ["c02", "zzz", "c01"], group_by := ["c01"],
            order_by := some "c01" } 50 5 1000).1
        = .ok ("SELECT c02, c01 FROM t  FROM t  GROUP BY c01  ORDER BY c01  LIMIT 50",
            [("limit", PValue.int 50)], []))
    ∧ ((_build_sql_query "t" schema13
          { columns := ["C01"], group_by := ["c01"], order_by := some "c01" }
          50 5 1000).1
        = .ok ("SELECT C01 FROM t  FROM t  GROUP BY c01  ORDER BY c01  LIMIT 50",
            [("limit", PValue.int 50)], [])) := by
  refine ⟨rfl, by decide, rfl, rfl, rfl⟩

/-- C4 (confirmed).  `estimate_query_cost`: an empty condition list yields
the full row count; a non-empty list yields whatever the last condition
alone yields; and a single condition is classified by checking, in order,
for `=` (row count divided by 10), `IN` (divided by 5), `LIKE` (divided
by 2), anything else (no reduction), with the divisions floored at one
row by `max 1 _`. -/
theorem C4_cost_estimator (tn : String) (rc : Nat) (cs : List String) (c : String) :
    estimate_query_cost tn [] rc = rc
    ∧ estimate_query_cost tn (cs ++ [c]) rc = estimate_query_cost tn [c] rc
    ∧ estimate_query_cost tn [c] rc =
        (if pyContains c "=" then max 1 (rc / 10)
         else if pyContains c "IN" then max 1 (rc / 5)
         else if pyContains c "LIKE" then max 1 (rc / 2)
         else rc) := by
  refine ⟨rfl, ?_, rfl⟩
  rw [estimate_query_cost, estimate_query_cost]
  have h1 : (cs ++ [c]).isEmpty = false := by simp
  have h2 : ([c] : List String).isEmpty = false := rfl
  rw [h1, h2]
  simp [List.foldl_append]

/-- C6 (code bug).  The orchestrator's budget decision is unreachable: on
the §8 scenario-D configuration (existing 2,000,000-row table, budget
1,000,000) `process_mcp_request` returns the generic processing-error
envelope — line 168 calls the nonexistent manager method
`get_table_row_count` (`AttributeError`), and even past that the sampling
branch reads the unbound local `rows` (`rows.budget`, line 219) and has no
`Rejected` else-branch. -/
theorem C6_budget_decision_bug :
    process_mcp_request dbOrders 1000 reqScenarioD
      = { sql_preview := "", params := [], auto_applied := [],
          note := some (.errorProcessing (.attributeError "get_table_row_count")) } := by
  rfl

/-- C8 (code bug).  The extractor's date-range rules are tried in the
claimed order and `last N days` resolves to `[today-N, today]`, but the
explicit `between` form assigns regex group 1 (the column name) to
`start_date` and group 2 (the first date) to `end_date`; group 3 is never
read, so `start_date = d1 ∧ end_date = d2` fails. -/
theorem C8_extractor_date_rules :
    ((extract_query_components 1000
        "created_at between '2024-01-01' and '2024-06-30'").start_date
        = some (.lit "created_at")
      ∧ (extract_query_components 1000
          "created_at between '2024-01-01' and '2024-06-30'").end_date
        = some (.lit "2024-01-01"))
    ∧ ((extract_query_components 1000 "orders last 30 days").start_date
        = some (.isoOfDay (1000 - 30))
      ∧ (extract_query_components 1000 "orders last 30 days").end_date
        = some (.isoOfDay 1000))
    ∧ ((extract_query_components 1000 "x between 'a' and 'b' last 5 days").start_date
        = some (.lit "x")
      ∧ (extract_query_components 1000 "x between 'a' and 'b' last 5 days").end_date
        = some (.lit "a")) := by
  refine ⟨⟨rfl, rfl⟩, ⟨rfl, rfl⟩, ⟨rfl, rfl⟩⟩

/-- C9 (code bug).  Ordering/grouping emission: `group_by_clause` is
assigned only when a group-by with a schema column is present and
`order_by_clause` only when `order_by` is given, yet both are read
unconditionally, so every combination except "both present" raises
`UnboundLocalError`; in particular the claimed default ordering on the
first selected column is unreachable.  When both are present, the group-by
columns are filtered to the schema and the caller's `order_by` is used
verbatim. -/
theorem C9_ordering_grouping_bug :
    ((_build_sql_query "t" [("id", "INTEGER")] { columns := ["id"] } 50 5 1000).1
        = .error (.unboundLocal "group_by_clause"))
    ∧ ((_build_sql_query "t" [("id", "INTEGER")]
          { columns := ["id"], order_by := some "id ASC" } 50 5 1000).1
        = .error (.unboundLocal "group_by_clause"))
    ∧ ((_build_sql_query "t" [("id", "INTEGER")]
          { columns := ["id"], group_by := ["id"] } 50 5 1000).1
        = .error (.unboundLocal "order_by_clause"))
    ∧ ((_build_sql_query "t" [("id", "INTEGER")]
          { columns := ["id"], group_by := ["id", "nope"], order_by := some "id ASC" }
          50 5 1000).1
        = .ok ("SELECT id FROM t  FROM t  GROUP BY id  ORDER BY id ASC  LIMIT 50",
            [("limit", PValue.int 50)], [])) := by
  refine ⟨rfl, rfl, rfl, rfl⟩

/-- C10 (code bug).  Lines 170-178 do pass `row_count or MAX_ROWS_BUDGET`
(so a zero row count would be replaced by 1,000,000, letting the implicit
date window fire on an empty table), but the substitution is dead code:
line 168 raises `AttributeError` for the nonexistent `get_table_row_count`
before synthesis is ever invoked, so the request yields the generic error
envelope with no auto-applied window. -/
theorem C10_rowcount_substitution :
    (process_mcp_request dbEmptyEvents 1000 reqEvents
        = { sql_preview := "", params := [], auto_applied := [],
            note := some (.errorProcessing (.attributeError "get_table_row_count")) })
    ∧ pyOrNat 0 MAX_ROWS_BUDGET = 1000000
    ∧ ((_build_sql_query "events" schemaDated qfEvents 50
          (pyOrNat 0 MAX_ROWS_BUDGET) 1000).1
        = .ok ("SELECT created_at FROM events  FROM events  WHERE created_at BETWEEN :start_date AND :end_date  GROUP BY created_at  ORDER BY created_at  LIMIT 50",
            [("start_date", .date (.isoOfDay 635)), ("end_date", .date (.isoOfDay 1000)),
             ("limit", PValue.int 50)],
            [.autoDateWindow (.isoOfDay 635) (.isoOfDay 1000)]))
    ∧ ((_build_sql_query "events" schemaDated qfEvents 50 0 1000).2 = qfEvents) := by
  refine ⟨rfl, rfl, rfl, rfl⟩

/-- C3 counterexample: the predicates after the date range are emitted in
the filter map's insertion order, not grouped as LIKE → IN → equality —
here an equality predicate precedes the LIKE predicates; moreover the
`d_like` filter still emits its LIKE predicates although `d` is not a
schema column. -/
theorem C3_order_counterexample :
    ((build_where_clause [("c", .str "x"), ("d_like", .str "y")]
        [("c", "TEXT"), ("e", "TEXT")] none none none).1
      = ["c = :param1", "c LIKE :param2", "e LIKE :param3"])
    ∧ (["c = :param1", "c LIKE :param2", "e LIKE :param3"]
        ≠ ["c LIKE :param2", "e LIKE :param3", "c = :param1"])
    ∧ ((([("c", "TEXT"), ("e", "TEXT")] : Schema).map Prod.fst).contains "d" = false) := by
  refine ⟨rfl, by decide, by decide⟩

/-- The filter-intent state `_build_sql_query` leaves behind: the intent is
mutated exactly when control reaches the implicit-date-window step and its
condition holds. -/
theorem build_sql_query_snd (tn : String) (schema : Schema) (qf : QueryFilter)
    (lim rc : Nat) (today : Int) :
    (_build_sql_query tn schema qf lim rc today).2 =
      if qf.columns.isEmpty then qf
      else if (qf.columns.filter
          (fun col => (schema.map Prod.fst).contains (pyLower col))).isEmpty then qf
      else if (!(optDateTruthy qf.start_date) && !(optDateTruthy qf.end_date)
          && optStrTruthy (find_date_column schema) && decide (rc > 10000)) then
        { qf with start_date := some (.isoOfDay (today - DEFAULT_WINDOW_DAYS)),
                  end_date := some (.isoOfDay today) }
      else qf := by
  simp only [_build_sql_query]
  split_ifs <;> rfl

/-- C2 (code bug).  The implicit date window of `_build_sql_query`: it
never fires at row counts ≤ 10,000 nor when the intent carries an explicit
date, and on intents that survive column selection it fires exactly when
the intent has no dates, `find_date_column` succeeds and the row count
exceeds 10,000, setting the window to the trailing 365 days ending today —
but "for every synthesis call" fails: an empty-columns intent meeting
every activation condition raises `UnboundLocalError` before the window
step, leaving the intent unmutated and recording no note. -/
theorem C2_date_window :
    (((_build_sql_query "t" schemaDated {} 50 20000 1000).1
        = .error (.unboundLocal "valid_columns"))
      ∧ (_build_sql_query "t" schemaDated {} 50 20000 1000).2 = {}
      ∧ find_date_column schemaDated = some "created_at")
    ∧ (∀ (tn : String) (schema : Schema) (qf : QueryFilter) (lim rc : Nat) (today : Int),
        rc ≤ 10000 → (_build_sql_query tn schema qf lim rc today).2 = qf)
    ∧ (∀ (tn : String) (schema : Schema) (qf : QueryFilter) (lim rc : Nat) (today : Int),
        optDateTruthy qf.start_date = true →
        (_build_sql_query tn schema qf lim rc today).2 = qf)
    ∧ (∀ (tn : String) (schema : Schema) (qf : QueryFilter) (lim rc : Nat) (today : Int),
        (qf.columns.filter
            (fun col => (schema.map Prod.fst).contains (pyLower col))).isEmpty = false →
        qf.columns.isEmpty = false →
        (_build_sql_query tn schema qf lim rc today).2 =
          (if (!(optDateTruthy qf.start_date) && !(optDateTruthy qf.end_date)
                && optStrTruthy (find_date_column schema) && decide (rc > 10000)) = true
           then
            { qf with start_date := some (.isoOfDay (today - DEFAULT_WINDOW_DAYS)),
                      end_date := some (.isoOfDay today) }
           else qf)) := by
  refine ⟨⟨rfl, rfl, rfl⟩, ?_, ?_, ?_⟩
  · intro tn schema qf lim rc today hrc
    rw [build_sql_query_snd]
    split_ifs with h1 h2 h3
    · rfl
    · rfl
    · exfalso
      simp only [Bool.and_eq_true, decide_eq_true_eq] at h3
      obtain ⟨-, hgt⟩ := h3
      omega
    · rfl
  · intro tn schema qf lim rc today hsd
    rw [build_sql_query_snd]
    split_ifs with h1 h2 h3
    · rfl
    · rfl
    · exfalso
      simp only [Bool.and_eq_true, Bool.not_eq_true'] at h3
      obtain ⟨⟨⟨hs, -⟩, -⟩, -⟩ := h3
      rw [hsd] at hs
      exact Bool.noConfusion hs
    · rfl
  · intro tn schema qf lim rc today hB hA
    rw [build_sql_query_snd]
    simp only [hA, hB, Bool.false_eq_true, if_false]

/-- C2 witness: at 9,000 rows the window does not fire. -/
theorem C2_date_window_witness :
    (_build_sql_query "t" schemaDated qfEvents 50 9000 1000).2 = qfEvents :=
  C2_date_window.2.1 "t" schemaDated qfEvents 50 9000 1000 (by omega)

/-- C3 (corrected, amended form).  `build_where_clause`: the date-range
BETWEEN predicate (when start date, end date and date column are all
truthy) is emitted first, followed by the remaining predicates in the
filter map's insertion order, each key classified individually: a `_like`
key emits one LIKE predicate against every schema column with a fresh
placeholder per column, regardless of whether its base column is in the
schema, and a non-`_like` filter whose column is not in the schema is
silently dropped. -/
theorem C3_where_clause_amended :
    (∀ (fs : List (String × FilterVal)) (schema : Schema) (sd ed : DateStr) (dc : String),
        sd.truthy = true → ed.truthy = true → dc.isEmpty = false →
        build_where_clause fs schema (some sd) (some ed) (some dc) =
          ((dc ++ " BETWEEN :start_date AND :end_date") :: (processFilters schema fs 1).1,
           ("start_date", PValue.date sd) :: ("end_date", PValue.date ed) ::
             (processFilters schema fs 1).2))
    ∧ (∀ (fs : List (String × FilterVal)) (schema : Schema) (dc : Option String),
        build_where_clause fs schema none none dc = processFilters schema fs 1)
    ∧ (∀ (schema : Schema) (k : String) (v : FilterVal),
        "_like".data.isSuffixOf k.data = true →
        build_where_clause [(k, v)] schema none none none =
          ((schema.enumFrom 1).map
             (fun p => p.2.1 ++ " LIKE :" ++ ("param" ++ toString p.1)),
           (schema.enumFrom 1).map
             (fun p => ("param" ++ toString p.1, v.toPValue))))
    ∧ (∀ (schema : Schema) (k : String) (v : FilterVal) (fs : List (String × FilterVal))
        (sd ed : Option DateStr) (dc : Option String),
        "_like".data.isSuffixOf k.data = false →
        (schema.map Prod.fst).contains k = false →
        build_where_clause ((k, v) :: fs) schema sd ed dc =
          build_where_clause fs schema sd ed dc)
    ∧ ((build_where_clause
          [("c", .str "x"), ("b", .list ["u", "v"]), ("d_like", .str "y")]
          [("c", "TEXT"), ("b", "TEXT")]
          (some (.lit "2024-01-01")) (some (.lit "2024-02-01")) (some "c")).1
        = ["c BETWEEN :start_date AND :end_date", "c = :param1",
           "b IN (:param2_0, :param2_1)", "c LIKE :param3", "b LIKE :param4"]) := by
  refine ⟨?_, ?_, ?_, ?_, rfl⟩
  · intro fs schema sd ed dc h1 h2 h3
    simp [build_where_clause, h1, h2, h3]
  · intro fs schema dc
    cases dc <;> simp [build_where_clause]
  · intro schema k v hlike
    have hpf : processFilters schema [(k, v)] 1 =
        ((schema.enumFrom 1).map
           (fun p => p.2.1 ++ " LIKE :" ++ ("param" ++ toString p.1)),
         (schema.enumFrom 1).map
           (fun p => ("param" ++ toString p.1, v.toPValue))) := by
      cases v with
      | str s =>
          rw [processFilters]
          simp only [hlike, if_true, likeLoop_spec]
          simp [processFilters, FilterVal.toPValue]
      | list vs =>
          rw [processFilters]
          simp only [hlike, if_true, likeLoop_spec]
          simp [processFilters, FilterVal.toPValue]
    simp only [build_where_clause, hpf, List.nil_append]
  · intro schema k v fs sd ed dc hlike habs
    have h := processFilters_drop schema k v fs 1 hlike habs
    simp only [build_where_clause, h]

/-- C3 witness: a dropped unknown-column equality filter, via the amended
theorem. -/
theorem C3_where_clause_witness :
    build_where_clause [("zzz", .str "q")] [("c", "TEXT")] none none none
      = build_where_clause [] [("c", "TEXT")] none none none :=
  C3_where_clause_amended.2.2.2.1 [("c", "TEXT")] "zzz" (.str "q") [] none none none
    (by decide) (by decide)

/-- C5 counterexample: on a SELECT whose keywords are lower-case the
claim fails — the case-insensitive detection sees a LIMIT, but
`str.replace` targets the literal upper-case keyword, so the statement is
returned unchanged and no sampling predicate is inserted. -/
theorem C5_lowercase_counterexample :
    _add_sampling "select * from t limit 5" 1 = "select * from t limit 5"
    ∧ pyContains (pyUpperS "select * from t limit 5") "LIMIT" = true
    ∧ pyContains (pyUpperS "select * from t limit 5") "WHERE" = false
    ∧ pyContains (pyUpperS "select * from t limit 5") "ORDER BY" = false
    ∧ pyContains (_add_sampling "select * from t limit 5" 1) "ABS(RANDOM())" = false := by
  refine ⟨rfl, by decide, by decide, by decide, by decide⟩

/-- C5 (corrected, amended form).  `_add_sampling` with the keyword
occurrences taken literally (upper-case, as the synthesizer emits them):
if `WHERE` occurs, the predicate is AND-ed in immediately after the first
`WHERE`; otherwise, if `ORDER BY` occurs, it is inserted immediately
before the first `ORDER BY`; otherwise, if `LIMIT` occurs, exactly one
sampling predicate is inserted immediately before the first `LIMIT` (the
parts around it stay `WHERE`-free, so the inserted predicate is the only
one); otherwise it is appended at the end.  Detection is case-insensitive,
so inputs whose keywords occur only in another case fall outside these
cases and are returned unchanged (see the counterexample). -/
theorem C5_sampling_amended (sql : String) (p : Nat) :
    (occursIn "WHERE".data sql.data = true →
      ∃ a b, sql.data = a ++ "WHERE".data ++ b ∧ occursIn "WHERE".data a = false ∧
        (_add_sampling sql p).data =
          a ++ ("WHERE ABS(RANDOM()) < " ++ toString p ++ " AND ").data ++ b)
    ∧ (occursIn "WHERE".data (upperL sql.data) = false →
        occursIn "ORDER BY".data sql.data = true →
      ∃ a b, sql.data = a ++ "ORDER BY".data ++ b ∧
        occursIn "ORDER BY".data a = false ∧
        (_add_sampling sql p).data =
          a ++ ("WHERE ABS(RANDOM()) < " ++ toString p ++ " ORDER BY ").data ++ b)
    ∧ (occursIn "WHERE".data (upperL sql.data) = false →
        occursIn "ORDER BY".data (upperL sql.data) = false →
        occursIn "LIMIT".data sql.data = true →
      ∃ a b, sql.data = a ++ "LIMIT".data ++ b ∧
        occursIn "LIMIT".data a = false ∧
        occursIn "WHERE".data a = false ∧ occursIn "WHERE".data b = false ∧
        (_add_sampling sql p).data =
          a ++ ("WHERE ABS(RANDOM()) < " ++ toString p ++ " LIMIT ").data ++ b)
    ∧ (occursIn "WHERE".data (upperL sql.data) = false →
        occursIn "ORDER BY".data (upperL sql.data) = false →
        occursIn "LIMIT".data (upperL sql.data) = false →
      _add_sampling sql p = sql ++ " WHERE ABS(RANDOM()) < " ++ toString p) := by
  refine ⟨?_, ?_, ?_, ?_⟩
  · intro h
    have hup : occursIn "WHERE".data (upperL sql.data) = true :=
      occursIn_upper (by decide) h
    obtain ⟨a, b, hs, ha, hr⟩ := replaceFirst_decomp "WHERE".data
      ("WHERE ABS(RANDOM()) < " ++ toString p ++ " AND ").data (by decide) sql.data h
    refine ⟨a, b, hs, ha, ?_⟩
    simp only [_add_sampling, pyContains, pyUpperS, pyReplaceFirst, stringData_mk, hup,
      if_true]
    exact hr
  · intro h1 h2
    have hup : occursIn "ORDER BY".data (upperL sql.data) = true :=
      occursIn_upper (by decide) h2
    obtain ⟨a, b, hs, ha, hr⟩ := replaceFirst_decomp "ORDER BY".data
      ("WHERE ABS(RANDOM()) < " ++ toString p ++ " ORDER BY ").data (by decide) sql.data h2
    refine ⟨a, b, hs, ha, ?_⟩
    simp only [_add_sampling, pyContains, pyUpperS, pyReplaceFirst, stringData_mk, h1, hup,
      Bool.false_eq_true, if_false, if_true]
    exact hr
  · intro h1 h2 h3
    have hup : occursIn "LIMIT".data (upperL sql.data) = true :=
      occursIn_upper (by decide) h3
    obtain ⟨a, b, hs, ha, hr⟩ := replaceFirst_decomp "LIMIT".data
      ("WHERE ABS(RANDOM()) < " ++ toString p ++ " LIMIT ").data (by decide) sql.data h3
    have hWsql : occursIn "WHERE".data sql.data = false := by
      cases hx : occursIn "WHERE".data sql.data with
      | false => rfl
      | true =>
          have := occursIn_upper (by decide) hx
          rw [h1] at this
          exact Bool.noConfusion this
    have hWa : occursIn "WHERE".data a = false := by
      refine occursIn_false_mono ?_ hWsql
      rw [hs]
      exact List.IsPrefix.isInfix ⟨"LIMIT".data ++ b, by simp⟩
    have hWb : occursIn "WHERE".data b = false := by
      refine occursIn_false_mono ?_ hWsql
      rw [hs]
      exact (List.suffix_append (a ++ "LIMIT".data) b).isInfix
    refine ⟨a, b, hs, ha, hWa, hWb, ?_⟩
    simp only [_add_sampling, pyContains, pyUpperS, pyReplaceFirst, stringData_mk, h1, h2,
      hup, Bool.false_eq_true, if_false, if_true]
    exact hr
  · intro h1 h2 h3
    simp only [_add_sampling, pyContains, pyUpperS, stringData_mk, h1, h2, h3,
      Bool.false_eq_true, if_false]

/-- C5 witness: the LIMIT-only case of the amended theorem at a concrete
upper-case SELECT. -/
theorem C5_sampling_witness :
    ∃ a b, ("SELECT a FROM t LIMIT 5").data = a ++ "LIMIT".data ++ b ∧
      occursIn "LIMIT".data a = false ∧
      occursIn "WHERE".data a = false ∧ occursIn "WHERE".data b = false ∧
      (_add_sampling "SELECT a FROM t LIMIT 5" 1).data =
        a ++ ("WHERE ABS(RANDOM()) < " ++ toString 1 ++ " LIMIT ").data ++ b :=
  (C5_sampling_amended "SELECT a FROM t LIMIT 5" 1).2.2.1 (by decide) (by decide) (by decide)

/-- C7 (confirmed).  `process_mcp_request` is total — every request yields
a response envelope, never an escaped exception — with exactly one of
`rows`/`note` populated on every terminal path, and a request whose
resolved table does not exist yields an empty `sql_preview` together with
the does-not-exist note. -/
theorem C7_total_error_recovery (db : Db) (today : Int) (request : MCPRequest) :
    (((process_mcp_request db today request).rows = none ∧
        ((process_mcp_request db today request).note).isSome = true) ∨
      (((process_mcp_request db today request).rows).isSome = true ∧
        (process_mcp_request db today request).note = none))
    ∧ (∀ name,
        _determine_table_ref request (extract_query_components today request.user_text)
          = .ok name →
        db.table_exists (normalize_table_ref name) = false →
        (process_mcp_request db today request).sql_preview = ""
          ∧ (process_mcp_request db today request).note
            = some (.tableDoesNotExist (normalize_table_ref name))) := by
  cases hdet : _determine_table_ref request (extract_query_components today request.user_text) with
  | error e =>
      have hpt : processTry db today request = .error e := by
        simp [processTry, hdet, bind, Except.bind]
      refine ⟨?_, ?_⟩
      · left
        simp [process_mcp_request, hpt]
      · intro name hname
        exact absurd hname (by simp)
  | ok name =>
      cases hex : db.table_exists (normalize_table_ref name) with
      | false =>
          have hpt : processTry db today request = .ok
              { sql_preview := "", params := [], auto_applied := [],
                note := some (.tableDoesNotExist (normalize_table_ref name)) } := by
            simp [processTry, hdet, hex, bind, Except.bind, pure, Except.pure]
          refine ⟨?_, ?_⟩
          · left
            simp [process_mcp_request, hpt]
          · intro nm hnm hx
            have hn : name = nm := by
              injection hnm
            subst hn
            simp [process_mcp_request, hpt]
      | true =>
          have hpt : processTry db today request
              = .error (.attributeError "get_table_row_count") := by
            simp [processTry, hdet, hex, bind, Except.bind, pure, Except.pure, throw,
              throwThe, MonadExceptOf.throw]
          refine ⟨?_, ?_⟩
          · left
            simp [process_mcp_request, hpt]
          · intro nm hnm hx
            have hn : name = nm := by
              injection hnm
            subst hn
            rw [hex] at hx
            exact Bool.noConfusion hx

/-- C7 witness: §8 scenario C — nonexistent table `ghost`. -/
theorem C7_total_error_recovery_witness :
    (process_mcp_request dbGhost 0 reqGhost).sql_preview = ""
      ∧ (process_mcp_request dbGhost 0 reqGhost).note
        = some (.tableDoesNotExist (normalize_table_ref "ghost")) :=
  (C7_total_error_recovery dbGhost 0 reqGhost).2 "ghost" rfl rfl

end SqliteMcp
